import Mathlib

/-!
# Verification of the sports-QA RAG resolution pipeline

Shallow embedding of the query-resolution pipeline of the `Cursor_First`
repository: the cascading cache → MySQL store → RAG orchestrator
(`core/rag_engine.py`), the Redis cache client (`database/redis_client.py`),
the MySQL store client (`database/mysql_client.py`), the query optimizer
(`models/query_optimizer.py`) and the HTTP handler (`api/main.py`).

External collaborators (Python string hashing, the jieba tokenizer, the BERT
intent classifier, the embedding model + Milvus index, the OpenAI generator)
are modelled as components of an `Env` record: arbitrary functions, fallible
ones returning `Except`.  Time is an explicit `Nat` parameter (seconds).
Floats of the source (confidence scores, similarity scores, durations) are
modelled as exact rationals.
-/

namespace SportsRag

/-! ## Data model -/

/-- Value cached by `RedisClient.set_qa_cache`: the dict
`{question, answer, category, timestamp}`. -/
structure CacheVal where
  question : String
  answer : String
  category : Option String
  timestamp : Nat
deriving Repr, DecidableEq

/-- One Redis key set with `SETEX`: it is readable while `now < expireAt`. -/
structure CacheCell where
  key : String
  val : CacheVal
  expireAt : Nat
deriving Repr, DecidableEq

/-- A row of the `qa_pairs` table (`mysql_client.py` DDL). -/
structure QAPair where
  id : Nat
  question : String
  answer : String
  category : Option String
  confidence : ℚ
  created_at : Nat
  updated_at : Nat
deriving Repr, DecidableEq

/-- A row of the append-only `query_logs` table. -/
structure LogEntry where
  user_id : String
  query : String
  response : String
  source : String
  response_time : ℚ
deriving Repr, DecidableEq

/-- A child candidate returned by `MilvusClient.hybrid_search`.  The source
reads it as a dict with `.get(..., default)`, so the text fields that are read
through `.get` are `Option`s here. -/
structure ChildDoc where
  doc_id : String
  parent_id : String
  title : Option String
  content : Option String
  category : Option String
  similarity : ℚ
  combined_score : ℚ
deriving Repr, DecidableEq

/-- A parent document returned by `MilvusClient.get_parent_documents`. -/
structure ParentDoc where
  doc_id : String
  title : Option String
  content : Option String
deriving Repr, DecidableEq

/-- A fused document built by `RAGEngine._retrieve_documents`. -/
structure FinalDoc where
  doc_id : String
  parent_id : String
  title : String
  content : String
  category : String
  similarity : ℚ
  combined_score : ℚ
deriving Repr, DecidableEq

/-- Result of `IntentClassifierManager.classify_query` (always returns a
dict; every failure is caught inside the manager and mapped to intent 0). -/
structure Intent where
  intent_id : Nat
  intent_label : String
  confidence : ℚ
deriving Repr, DecidableEq

/-- Result dict of `QueryOptimizer.optimize_query`. -/
structure OptResult where
  strategy : String
  original_query : String
  optimized_query : String
  sub_queries : List String
  confidence : ℚ
  explanation : String
deriving Repr, DecidableEq

/-- Result dict of `RAGEngine._process_with_rag`. -/
structure RagResp where
  reply : String
  intent : Intent
  path : String
  documents : List FinalDoc
  optimization : Option OptResult
  error : Option String
deriving Repr, DecidableEq

/-- Response dict built by `RAGEngine._build_response`. -/
structure Response where
  query : String
  reply : String
  source : String
  response_time : ℚ
  timestamp : Nat
  user_id : Option String
  session_id : Option String
  rag_details : Option RagResp
  error : Option String
deriving Repr, DecidableEq

/-- Persistent state shared by the two datastores: the Redis keyspace (qa
cache cells and per-query counters kept separately: their key prefixes `qa:`
and `count:` never collide) and the two MySQL tables. -/
structure SysState where
  cache : List CacheCell
  counts : List (String × Nat)
  qaPairs : List QAPair
  queryLogs : List LogEntry
deriving Repr, DecidableEq

/-- External collaborators of one running process.

* `pyhash` — the Python builtin `hash` on strings for this process.  CPython
  only guarantees that it is a fixed function within one interpreter run;
  with hash randomization two runs generally disagree, so distinct `Env`
  values model distinct processes.
* `tokenize` — `jieba.cut` (external segmentation library).
* `posCut` — `jieba.posseg.cut`: token together with its part-of-speech flag.
* `extractTags` — `jieba.analyse.extract_tags(query, topK=5)`.
* `matchQA query question` — MySQL `MATCH(question) AGAINST(query IN NATURAL
  LANGUAGE MODE)` viewed as a boolean relevance predicate.
* `classify` — `IntentClassifierManager.classify_query`, total because the
  manager catches every delegate failure and returns the general-intent dict.
* `hybridSearch` — the embedding computation plus
  `MilvusClient.hybrid_search`; an `Except.error` models any exception
  raised inside `_retrieve_documents`'s try block.
* `getParents` — `MilvusClient.get_parent_documents`.
* `llm` — Modelled from the spec: the repository's `llm/openai_client.py`
  (`LLMManager.generate_final_response`) is not under `src/`; per spec §6 it
  is the capability `Generator.complete(query, documents?, isGeneral) ->
  {reply}`, a black-box call that may fail. -/
structure Env where
  pyhash : String → Int
  tokenize : String → List String
  posCut : String → List (String × String)
  extractTags : String → List String
  matchQA : String → String → Bool
  classify : String → Intent
  hybridSearch : String → Except String (List ChildDoc)
  getParents : List String → List ParentDoc
  llm : String → List FinalDoc → Bool → Except String String

/-! ## Configuration defaults (`config.py`) -/

/-- `Config.TOP_K` default. -/
def TOP_K : Nat := 10

/-- `Config.TOP_M` default. -/
def TOP_M : Nat := 5

/-- `Config.CACHE_EXPIRE_TIME` default (seconds). -/
def CACHE_EXPIRE_TIME : Nat := 3600

/-! ## Redis client (`database/redis_client.py`) -/

/-- The cache key computed by `set_qa_cache`/`get_qa_cache`:
`f"qa:{hash(question)}"` over the raw question text. -/
def fingerprint (env : Env) (question : String) : String :=
  "qa:" ++ toString (env.pyhash question)

/-- `RedisClient.set_cache`: `SETEX key expire value`.  A later cell with the
same key shadows an earlier one, which models overwriting. -/
def set_cache (now : Nat) (key : String) (v : CacheVal) (expire : Nat)
    (cache : List CacheCell) : List CacheCell :=
  { key := key, val := v, expireAt := now + expire } :: cache

/-- `RedisClient.get_cache`: `GET key`, `none` once the TTL has elapsed. -/
def get_cache (now : Nat) (key : String) (cache : List CacheCell) :
    Option CacheVal :=
  match cache.find? (fun c => c.key == key) with
  | some c => if now < c.expireAt then some c.val else none
  | none => none

/-- `RedisClient.set_qa_cache`: stores the qa dict under
`qa:{hash(question)}` with the default TTL. -/
def set_qa_cache (env : Env) (now : Nat) (question answer : String)
    (category : Option String) (st : SysState) : SysState :=
  { st with cache := (set_cache now (fingerprint env question)
      { question := question, answer := answer, category := category,
        timestamp := now } CACHE_EXPIRE_TIME st.cache) }

/-- `RedisClient.get_qa_cache`. -/
def get_qa_cache (env : Env) (now : Nat) (question : String)
    (st : SysState) : Option CacheVal :=
  get_cache now (fingerprint env question) st.cache

/-- `RedisClient.increment_query_count`: `INCR count:{hash(question)}`. -/
def increment_query_count (env : Env) (question : String) (st : SysState) :
    SysState :=
  let key := "count:" ++ toString (env.pyhash question)
  { st with counts :=
      match st.counts.find? (fun kv => kv.1 == key) with
      | some kv => (key, kv.2 + 1) :: st.counts.filter (fun kv2 => !(kv2.1 == key))
      | none => (key, 1) :: st.counts }

/-! ## MySQL client (`database/mysql_client.py`) -/

/-- The `ORDER BY confidence DESC, updated_at DESC` comparison: `a` may come
before `b` iff `(a.confidence, a.updated_at)` is lexicographically ≥
`(b.confidence, b.updated_at)`. -/
def qaR (a b : QAPair) : Prop :=
  b.confidence < a.confidence ∨
    (b.confidence = a.confidence ∧ b.updated_at ≤ a.updated_at)

instance : DecidableRel qaR := fun a b =>
  inferInstanceAs (Decidable (_ ∨ _))

instance : IsTotal QAPair qaR where
  total a b := by
    rcases lt_trichotomy a.confidence b.confidence with h | h | h
    · exact Or.inr (Or.inl h)
    · rcases Nat.le_total b.updated_at a.updated_at with h2 | h2
      · exact Or.inl (Or.inr ⟨h.symm, h2⟩)
      · exact Or.inr (Or.inr ⟨h, h2⟩)
    · exact Or.inl (Or.inl h)

instance : IsTrans QAPair qaR where
  trans a b c hab hbc := by
    rcases hab with h1 | ⟨h1, h1u⟩ <;> rcases hbc with h2 | ⟨h2, h2u⟩
    · exact Or.inl (h2.trans h1)
    · exact Or.inl (h2 ▸ h1)
    · exact Or.inl (h1 ▸ h2)
    · exact Or.inr ⟨h2.trans h1, h2u.trans h1u⟩

/-- `MySQLClient.search_qa`: rows matched by full-text search, filtered by
`confidence >= threshold`, ordered by `confidence DESC, updated_at DESC`,
`LIMIT 1`.  SQL leaves the order of rows fully tied on both sort keys
unspecified; a stable sort of the table followed by taking the head is one
admissible refinement. -/
def search_qa (env : Env) (st : SysState) (question : String)
    (threshold : ℚ := mkRat 8 10) : Option QAPair :=
  (List.insertionSort qaR (st.qaPairs.filter (fun p =>
      env.matchQA question p.question && decide (threshold ≤ p.confidence)))
    ).head?

/-- `MySQLClient.insert_qa` (`confidence` defaults to `1.0`; `id`,
`created_at`, `updated_at` are supplied by the database). -/
def insert_qa (question answer : String) (category : Option String)
    (confidence : ℚ) (id now : Nat) (st : SysState) : SysState :=
  { st with qaPairs := st.qaPairs ++
      [{ id := id, question := question, answer := answer,
         category := category, confidence := confidence,
         created_at := now, updated_at := now }] }

/-- `MySQLClient.log_query`: appends one row to `query_logs`. -/
def log_query_db (uid query response source : String) (rt : ℚ)
    (st : SysState) : SysState :=
  { st with queryLogs := st.queryLogs ++
      [{ user_id := uid, query := query, response := response,
         source := source, response_time := rt }] }

/-! ## Query optimizer (`models/query_optimizer.py`) -/

/-- Python's substring test `needle in hay`. -/
def pyIn (needle hay : String) : Bool :=
  hay.data.tails.any (fun t => needle.data.isPrefixOf t)

/-- The 15-term list of `QueryOptimizer._contains_sports_terms`. -/
def sportsTerms : List String :=
  ["篮球", "足球", "网球", "羽毛球", "乒乓球", "跑步", "健身", "瑜伽",
   "游泳", "骑行", "滑雪", "高尔夫", "棒球", "橄榄球", "排球"]

/-- `QueryOptimizer._contains_sports_terms`. -/
def contains_sports_terms (query : String) : Bool :=
  sportsTerms.any (fun t => pyIn t query)

/-- The distinct characters of the regex character class
`[什么|怎么|如何|为什么|哪个|哪些]` at `query_optimizer.py:61`.  Inside
`[...]` the `|` is a literal, so the class matches any single one of these
ten characters. -/
def questionChars : List Char :=
  ['什', '么', '|', '怎', '如', '何', '为', '哪', '个', '些']

/-- `bool(re.search(r'[什么|怎么|如何|为什么|哪个|哪些]', query))`:
true iff the query contains at least one character of the class. -/
def has_question_words (query : String) : Bool :=
  query.data.any (fun c => questionChars.contains c)

/-- `QueryOptimizer._select_best_strategy`:
`len(query)` is the number of code points, the token count comes from
`jieba.cut`, and the two boolean features are as above. -/
def select_best_strategy (env : Env) (query : String) : String :=
  let query_length := query.length
  let word_count := (env.tokenize query).length
  let has_question := has_question_words query
  let has_sports := contains_sports_terms query
  if query_length < 10 ∧ word_count ≤ 3 then "direct"
  else if has_question = true ∧ has_sports = true then "subquery"
  else if query_length > 20 ∧ word_count > 8 then "backtrack"
  else if has_sports = true ∧ has_question = false then "hypothesis"
  else "direct"

/-- Whitespace in the sense of the source's `\s` patterns, restricted to the
ASCII whitespace that `String.trim` also recognises. -/
def isWs (c : Char) : Bool := c.isWhitespace

/-- Collapses runs of `' '` to a single `' '` (the run has already been
mapped to spaces). -/
def squeezeSpaces : List Char → List Char
  | [] => []
  | [c] => [c]
  | a :: b :: rest =>
    if a = ' ' ∧ b = ' ' then squeezeSpaces (b :: rest)
    else a :: squeezeSpaces (b :: rest)

/-- A character kept by the allow-list regex
`[^\w\s一-鿿?！!]` of `_clean_query` (after the punctuation
normalisation step only `?` and `!` remain of the listed marks).  `\w` is
modelled as ASCII alphanumerics plus underscore; the CJK range is explicit
in the pattern. -/
def isAllowed (c : Char) : Bool :=
  c.isAlphanum || c = '_' || isWs c ||
    (0x4e00 ≤ c.toNat ∧ c.toNat ≤ 0x9fff) || c = '?' || c = '！' || c = '!'

/-- `QueryOptimizer._clean_query`: strip, collapse whitespace runs to one
space, normalise `？`→`?` and `！`→`!`, drop characters outside the
allow-list. -/
def clean_query (query : String) : String :=
  let s1 := squeezeSpaces
    ((query.trim.data).map (fun c => if isWs c then ' ' else c))
  let s2 := s1.map (fun c => if c = '？' then '?' else if c = '！' then '!' else c)
  String.mk (s2.filter isAllowed)

/-- State of the phrase-grouping loop of `_decompose_query`. -/
structure DecompState where
  noun_phrases : List String
  verb_phrases : List String
  current_noun : List String
  current_verb : List String
deriving Repr, DecidableEq

/-- One iteration of the `for word, flag in words` loop of
`_decompose_query`. -/
def decompStep (st : DecompState) (wf : String × String) : DecompState :=
  let (word, flag) := wf
  if "n".isPrefixOf flag then
    let st := { st with current_noun := st.current_noun ++ [word] }
    if st.current_verb ≠ [] then
      { st with verb_phrases := st.verb_phrases ++ [String.join st.current_verb],
                current_verb := [] }
    else st
  else if "v".isPrefixOf flag then
    let st := { st with current_verb := st.current_verb ++ [word] }
    if st.current_noun ≠ [] then
      { st with noun_phrases := st.noun_phrases ++ [String.join st.current_noun],
                current_noun := [] }
    else st
  else
    let st :=
      if st.current_noun ≠ [] then
        { st with noun_phrases := st.noun_phrases ++ [String.join st.current_noun],
                  current_noun := [] }
      else st
    if st.current_verb ≠ [] then
      { st with verb_phrases := st.verb_phrases ++ [String.join st.current_verb],
                current_verb := [] }
    else st

/-- `QueryOptimizer._decompose_query` over the part-of-speech segmentation
delivered by jieba. -/
def decompose_query (env : Env) (query : String) : List String :=
  let st := (env.posCut query).foldl decompStep ⟨[], [], [], []⟩
  let noun_phrases := st.noun_phrases ++
    (if st.current_noun ≠ [] then [String.join st.current_noun] else [])
  let verb_phrases := st.verb_phrases ++
    (if st.current_verb ≠ [] then [String.join st.current_verb] else [])
  let sub_queries :=
    noun_phrases.filter (fun n => 1 < n.length) ++
    verb_phrases.filter (fun v => 1 < v.length)
  sub_queries.take 5

/-- `QueryOptimizer._get_sports_context`. -/
def get_sports_context (query : String) : String :=
  if ["篮球", "足球", "网球"].any (fun t => pyIn t query) then "运动装备"
  else if ["跑步", "健身", "瑜伽"].any (fun t => pyIn t query) then "健身器材"
  else if ["护膝", "护腕", "护肘"].any (fun t => pyIn t query) then "防护装备"
  else "体育用品"

/-- `QueryOptimizer._enhance_sub_query` (`_get_sports_context` never returns
an empty string, so the context is always appended). -/
def enhance_sub_query (sub_query original_query : String) : String :=
  let ctx := get_sports_context original_query
  if ctx ≠ "" then sub_query ++ " " ++ ctx else sub_query

/-- The stop-word set of `_extract_key_concepts`. -/
def stopWords : List String :=
  ["的", "了", "在", "是", "我", "有", "和", "就", "不", "人", "都", "一",
   "一个", "上", "也", "很", "到", "说", "要", "去", "你", "会", "着",
   "没有", "看", "好", "自己", "这"]

/-- `QueryOptimizer._extract_key_concepts` over the keyword-extraction
delegate. -/
def extract_key_concepts (env : Env) (query : String) : List String :=
  ((env.extractTags query).filter
    (fun w => !(stopWords.contains w) && decide (1 < w.length))).take 3

/-- `QueryOptimizer._generate_base_query`: the first canned base question. -/
def generate_base_query (concept : String) : String := "什么是" ++ concept

/-- `query.replace('?', '').replace('？', '')`. -/
def stripQuestionMarks (query : String) : String :=
  String.mk (query.data.filter (fun c => !(c = '?' ∨ c = '？')))

/-- `QueryOptimizer._generate_hypotheses`. -/
def generate_hypotheses (query : String) : List String :=
  (if pyIn "?" query || pyIn "？" query then
    let base := stripQuestionMarks query
    ["关于" ++ base ++ "的解答", base ++ "的相关信息", base ++ "的详细说明"]
  else
    [query ++ "的特点", query ++ "的用途", query ++ "的推荐", query ++ "的对比"]
  ).take 3

/-- `QueryOptimizer._hypothesis_to_query`. -/
def hypothesis_to_query (hypothesis original_query : String) : String :=
  if pyIn "特点" hypothesis then original_query ++ " 特点 优势"
  else if pyIn "用途" hypothesis then original_query ++ " 用途 应用场景"
  else if pyIn "推荐" hypothesis then original_query ++ " 推荐 选择"
  else if pyIn "对比" hypothesis then original_query ++ " 对比 区别"
  else hypothesis

/-- `QueryOptimizer._direct_retrieval`. -/
def direct_retrieval (query : String) : OptResult :=
  let optimized := clean_query query
  { strategy := "direct", original_query := query,
    optimized_query := optimized, sub_queries := [optimized],
    confidence := mkRat 9 10,
    explanation := "使用直接检索策略，对查询进行标准化处理" }

/-- `QueryOptimizer._subquery_retrieval`. -/
def subquery_retrieval (env : Env) (query : String) : OptResult :=
  let subs := (decompose_query env query).map
    (fun sq => enhance_sub_query sq query)
  { strategy := "subquery", original_query := query,
    optimized_query := query, sub_queries := subs,
    confidence := mkRat 85 100,
    explanation := "将复杂查询分解为" ++ toString subs.length ++ "个子查询" }

/-- `QueryOptimizer._backtrack_retrieval`. -/
def backtrack_retrieval (env : Env) (query : String) : OptResult :=
  let concepts := extract_key_concepts env query
  { strategy := "backtrack", original_query := query,
    optimized_query := query,
    sub_queries := query :: concepts.map generate_base_query,
    confidence := mkRat 8 10,
    explanation := "识别出" ++ toString concepts.length ++ "个关键概念，生成回溯查询" }

/-- `QueryOptimizer._hypothesis_retrieval`. -/
def hypothesis_retrieval (query : String) : OptResult :=
  let hyps := generate_hypotheses query
  { strategy := "hypothesis", original_query := query,
    optimized_query := query,
    sub_queries := query :: hyps.map (fun h => hypothesis_to_query h query),
    confidence := mkRat 75 100,
    explanation := "生成" ++ toString hyps.length ++ "个假设答案，转换为相关查询" }

/-- `QueryOptimizer._fallback_optimization`. -/
def fallback_optimization (query : String) : OptResult :=
  { strategy := "fallback", original_query := query,
    optimized_query := query, sub_queries := [query],
    confidence := mkRat 1 2,
    explanation := "使用回退策略，保持原查询不变" }

/-- `QueryOptimizer.optimize_query`: with `"auto"` the strategy is chosen by
`_select_best_strategy`; an unrecognised explicit name raises `ValueError`,
which the surrounding try catches and maps to the fallback result. -/
def optimize_query (env : Env) (query : String) (strategy : String := "auto") :
    OptResult :=
  let chosen := if strategy = "auto" then select_best_strategy env query
                else strategy
  if chosen = "direct" then direct_retrieval query
  else if chosen = "subquery" then subquery_retrieval env query
  else if chosen = "backtrack" then backtrack_retrieval env query
  else if chosen = "hypothesis" then hypothesis_retrieval query
  else fallback_optimization query

/-! ## Hybrid retriever and fuser (`RAGEngine._retrieve_documents`) -/

/-- Fusion of one child candidate with its parent:
`next((p for p in parent_documents if p["doc_id"] == child["parent_id"]), None)`
followed by the merged dict; `none` when no parent matches (the candidate is
dropped silently). -/
def fuseOne (parents : List ParentDoc) (c : ChildDoc) : Option FinalDoc :=
  (parents.find? (fun p => p.doc_id == c.parent_id)).map (fun p =>
    { doc_id := c.doc_id, parent_id := c.parent_id,
      title := p.title.getD (c.title.getD ""),
      content := (p.content.getD "") ++ "\n\n" ++ (c.content.getD ""),
      category := c.category.getD "",
      similarity := c.similarity,
      combined_score := c.combined_score })

/-- The descending-by-`combined_score` comparison used for the final sort:
`a` may come before `b` iff `b.combined_score ≤ a.combined_score`.  Python's
`list.sort(key=..., reverse=True)` is the stable sort for this total
preorder (higher scores first, equal scores in original order), and a
stable sort of a list with respect to a total preorder is unique, so any
stable sorting algorithm embeds it faithfully. -/
def docR (a b : FinalDoc) : Prop := b.combined_score ≤ a.combined_score

instance : DecidableRel docR := fun a b =>
  inferInstanceAs (Decidable (_ ≤ _))

instance : IsTotal FinalDoc docR where
  total a b := le_total b.combined_score a.combined_score

instance : IsTrans FinalDoc docR where
  trans _ _ _ hab hbc := le_trans hbc hab

/-- The fuse / sort / truncate stage of `_retrieve_documents` (lines
228–249): one fused document per child candidate with an existing parent,
stably sorted by `combined_score` descending, truncated to `TOP_M`. -/
def fuseDocuments (children : List ChildDoc) (parents : List ParentDoc) :
    List FinalDoc :=
  (List.insertionSort docR (children.filterMap (fuseOne parents))).take TOP_M

/-- `RAGEngine._retrieve_documents`.  The whole body runs in a try whose
handler returns `[]`, so a failing embedding/index call (the `Except.error`
of `hybridSearch`) yields the empty list; so does an empty candidate list.
The `optimization_result` argument is accepted and ignored, as in the
source. -/
def retrieve_documents (env : Env) (query : String) (opt : OptResult) :
    List FinalDoc :=
  match env.hybridSearch query with
  | .error _ => []
  | .ok children =>
    match children with
    | [] => []
    | _ =>
      let parents := env.getParents (children.map (fun c => c.doc_id))
      fuseDocuments children parents

/-! ## RAG engine orchestration (`core/rag_engine.py`) -/

/-- `RAGEngine._check_cache` (its except-handler maps a client failure to a
miss; the embedded client is total). -/
def check_cache (env : Env) (now : Nat) (query : String) (st : SysState) :
    Option CacheVal :=
  get_qa_cache env now query st

/-- `RAGEngine._check_mysql`: `search_qa(query)` with the default threshold
`0.8`. -/
def check_mysql (env : Env) (query : String) (st : SysState) :
    Option QAPair :=
  search_qa env st query (mkRat 8 10)

/-- `RAGEngine._cache_response`: write-through `set_qa_cache` followed by
`increment_query_count`. -/
def cache_response (env : Env) (now : Nat) (query answer : String)
    (st : SysState) : SysState :=
  increment_query_count env query (set_qa_cache env now query answer none st)

/-- `RAGEngine._log_query`: `user_id or "anonymous"`, then
`MySQLClient.log_query`.  (Python `or` also replaces an empty id.) -/
def log_query (uid : Option String) (query response source : String)
    (rt : ℚ) (st : SysState) : SysState :=
  let u := match uid with
    | some s => if s = "" then "anonymous" else s
    | none => "anonymous"
  log_query_db u query response source rt st

/-- The fallback intent dict built inside `_process_with_rag`'s handler
(`{"intent_label": "通用知识", "confidence": 0.5}`; it carries no
`intent_id` key, rendered here as id 0 since nothing reads it). -/
def fallbackIntent : Intent :=
  { intent_id := 0, intent_label := "通用知识", confidence := mkRat 1 2 }

/-- The try-block of `RAGEngine._process_with_rag`: intent gate, then either
the general-knowledge path or optimization + retrieval + generation.  The
only calls that can raise are the generator calls. -/
def rag_attempt (env : Env) (query : String) : Except String RagResp :=
  let intent := env.classify query
  if intent.intent_id = 1 then
    let opt := optimize_query env query "auto"
    let docs := retrieve_documents env query opt
    match env.llm query docs false with
    | .ok reply =>
      .ok { reply := reply, intent := intent,
            path := "professional_consultation", documents := docs,
            optimization := some opt, error := none }
    | .error e => .error e
  else
    match env.llm query [] true with
    | .ok reply =>
      .ok { reply := reply, intent := intent, path := "general_knowledge",
            documents := [], optimization := none, error := none }
    | .error e => .error e

/-- `RAGEngine._process_with_rag`: on any failure of the try-block the
handler issues one more general-knowledge generation; only a failure of
that final call escapes. -/
def process_with_rag (env : Env) (query : String) : Except String RagResp :=
  match rag_attempt env query with
  | .ok r => .ok r
  | .error e =>
    match env.llm query [] true with
    | .ok reply =>
      .ok { reply := reply, intent := fallbackIntent, path := "fallback",
            documents := [], optimization := none, error := some e }
    | .error e2 => .error e2

/-- The fixed prefix of the apologetic reply built in `process_query`'s
handler; the root cause is appended after it. -/
def errPrefix : String :=
  "抱歉，处理您的查询时出现错误，请稍后重试或联系人工客服。错误信息："

/-- `RAGEngine._build_response`.  `rag_details` and `error` keys are added
only when truthy; an empty error string is falsy in Python and therefore
omitted. -/
def build_response (query reply source : String) (response_time : ℚ)
    (timestamp : Nat) (user_id session_id : Option String)
    (rag_details : Option RagResp) (error : Option String) : Response :=
  { query := query, reply := reply, source := source,
    response_time := response_time, timestamp := timestamp,
    user_id := user_id, session_id := session_id,
    rag_details := rag_details,
    error := match error with
      | some e => if e = "" then none else some e
      | none => none }

/-- The try-block of `RAGEngine.process_query`: cache probe, store probe
with write-through, RAG path with its `source="rag"` log.  An
`Except.error` is an exception escaping the block (only the RAG step can
raise one, and it mutates no state before doing so). -/
def process_query_attempt (env : Env) (now : Nat) (query : String)
    (user_id session_id : Option String) (st : SysState) :
    Except String (Response × SysState) :=
  match check_cache env now query st with
  | some cached =>
    .ok (build_response query cached.answer "cache" 0 now user_id session_id
          none none, st)
  | none =>
    match check_mysql env query st with
    | some m =>
      let st1 := cache_response env now query m.answer st
      .ok (build_response query m.answer "mysql" 0 now user_id session_id
            none none, st1)
    | none =>
      match process_with_rag env query with
      | .ok rag =>
        let st1 := log_query user_id query rag.reply "rag" 0 st
        .ok (build_response query rag.reply "rag" 0 now user_id session_id
              (some rag) none, st1)
      | .error e => .error e

/-- `RAGEngine.process_query`: the try-block, with the top-level handler
that degrades any escaped exception to an apologetic reply, an
`source="error"` log entry, and a normal response. -/
def process_query (env : Env) (now : Nat) (query : String)
    (user_id session_id : Option String) (st : SysState) :
    Response × SysState :=
  match process_query_attempt env now query user_id session_id st with
  | .ok r => r
  | .error e =>
    let reply := errPrefix ++ e
    let st1 := log_query user_id query reply "error" 0 st
    (build_response query reply "error" 0 now user_id session_id none
      (some e), st1)

/-! ## HTTP handler (`api/main.py`, POST `/api/query`) -/

/-- The validated request body (`QueryRequest` pydantic model). -/
structure QueryRequest where
  query : String
  user_id : Option String
  session_id : Option String
deriving Repr, DecidableEq

/-- The `data` dict assembled by the handler on the success path. -/
structure ApiData where
  query : String
  reply : String
  source : String
  response_time : ℚ
  total_time : ℚ
  session_id : String
  user_id : Option String
  rag_details : Option RagResp
deriving Repr, DecidableEq

/-- The `QueryResponse` pydantic model (`data` flattened into either the
success payload or the handler-level error dict). -/
structure QueryResponse where
  success : Bool
  data : Option ApiData
  errorData : Option String
  message : String
deriving Repr, DecidableEq

/-- The POST `/api/query` handler.  `newSessionId` stands for the
`str(uuid.uuid4())` drawn when the request carries no (or an empty, hence
falsy) session id.  The engine call returns normally on every input, so the
handler's own except-branch is unreachable and the transport answer always
has `success=True`. -/
def api_process_query (env : Env) (now : Nat) (newSessionId : String)
    (req : QueryRequest) (st : SysState) : QueryResponse × SysState :=
  let sid := match req.session_id with
    | some s => if s = "" then newSessionId else s
    | none => newSessionId
  let (resp, st1) := process_query env now req.query req.user_id (some sid) st
  ({ success := true,
     data := some
       { query := resp.query, reply := resp.reply, source := resp.source,
         response_time := resp.response_time, total_time := 0,
         session_id := sid, user_id := req.user_id,
         rag_details := resp.rag_details },
     errorData := none,
     message := "查询处理成功" }, st1)

/-! ## Concrete fixtures used by counterexamples and witnesses -/

/-- The empty datastore state. -/
def stEmpty : SysState := ⟨[], [], [], []⟩

/-- A process whose classifier labels everything general and whose generator
answers `"你好"`; the store matches nothing, the index returns nothing. -/
def envGeneral : Env :=
  { pyhash := fun s => (s.length : Int),
    tokenize := fun _ => [],
    posCut := fun _ => [],
    extractTags := fun _ => [],
    matchQA := fun _ _ => false,
    classify := fun _ => ⟨0, "通用知识", mkRat 9 10⟩,
    hybridSearch := fun _ => .ok [],
    getParents := fun _ => [],
    llm := fun _ _ _ => .ok "你好" }

/-- Like `envGeneral`, but the store's full-text match is string equality. -/
def envStore : Env := { envGeneral with matchQA := fun a b => a == b }

/-- A state holding one high-confidence QA pair for the question `"hi"`. -/
def stStore : SysState :=
  ⟨[], [], [⟨1, "hi", "ans", none, mkRat 9 10, 0, 0⟩], []⟩

/-- A process whose generator always fails. -/
def envBoom : Env := { envGeneral with llm := fun _ _ _ => .error "boom" }

/-- Two interpreter runs whose (salted) string hashes disagree. -/
def envHashZero : Env := { envGeneral with pyhash := fun _ => 0 }

/-- See `envHashZero`. -/
def envHashOne : Env := { envGeneral with pyhash := fun _ => 1 }

/-- A process whose segmenter cuts the example query into three tokens. -/
def envTok3 : Env :=
  { envGeneral with tokenize := fun _ => ["篮球鞋", "多少", "钱"] }

/-! ## Shared projection lemmas -/

lemma cache_response_queryLogs (env : Env) (now : Nat) (q a : String)
    (st : SysState) : (cache_response env now q a st).queryLogs = st.queryLogs :=
  rfl

lemma increment_query_count_cache (env : Env) (q : String) (st : SysState) :
    (increment_query_count env q st).cache = st.cache :=
  rfl

lemma log_query_queryLogs (uid : Option String) (q r s : String) (rt : ℚ)
    (st : SysState) :
    (log_query uid q r s rt st).queryLogs =
      st.queryLogs ++ [⟨match uid with
        | some u => if u = "" then "anonymous" else u
        | none => "anonymous", q, r, s, rt⟩] :=
  rfl

/-- After the store write-through, a cache probe for the same raw query
within the TTL hits the fresh cell. -/
lemma check_cache_cache_response (env : Env) (now1 now2 : Nat) (q a : String)
    (st : SysState) (h : now2 < now1 + CACHE_EXPIRE_TIME) :
    check_cache env now2 q (cache_response env now1 q a st) =
      some ⟨q, a, none, now1⟩ := by
  show get_cache now2 (fingerprint env q)
    ({ key := fingerprint env q, val := ⟨q, a, none, now1⟩,
       expireAt := now1 + CACHE_EXPIRE_TIME } :: st.cache) = _
  simp [get_cache, List.find?_cons, h]

/-! ## Claim theorems -/

/-- C2, counterexample.  The claim says the cache fingerprint is computed
from the normalized query (so that queries differing only in surrounding
whitespace share a key) and is stable across process restarts.  The code
computes `qa:{hash(question)}` on the raw text with Python's per-process
salted `hash`: in a process whose hash distinguishes `" 球"` from `"球"`
the two keys differ and the cached answer for one is invisible to the
other, and two processes with different hash seeds put the same query under
different keys. -/
theorem C2_counterexample :
    fingerprint envGeneral " 球" ≠ fingerprint envGeneral "球" ∧
    get_qa_cache envGeneral 0 "球"
      (set_qa_cache envGeneral 0 " 球" "a" none stEmpty) = none ∧
    fingerprint envHashZero "球" ≠ fingerprint envHashOne "球" := by
  refine ⟨by decide, rfl, by decide⟩

/-- C2, amended.  Within one process (one `Env`), the fingerprint is a pure
deterministic function of the raw query text: writing an answer with
`set_qa_cache` and reading with `get_qa_cache` for the identical string
round-trips (here at the write instant; expiry is the subject of C1). -/
theorem C2_fingerprint_pure (env : Env) (now : Nat) (q a : String)
    (cat : Option String) (st : SysState) :
    get_qa_cache env now q (set_qa_cache env now q a cat st) =
      some ⟨q, a, cat, now⟩ := by
  show get_cache now (fingerprint env q)
    ({ key := fingerprint env q, val := ⟨q, a, cat, now⟩,
       expireAt := now + CACHE_EXPIRE_TIME } :: st.cache) = _
  simp [get_cache, List.find?_cons, CACHE_EXPIRE_TIME]

/-- C9.  `process_query` returns normally on every input (it is a total
function into `Response`, matching the top-level except-handler of the
source), echoes the request fields, and its `source` is always one of the
four literals `cache`, `mysql`, `rag`, `error` — the store tier is tagged
`"mysql"`. -/
theorem C9_response_shape (env : Env) (now : Nat) (q : String)
    (uid sid : Option String) (st : SysState) :
    ((process_query env now q uid sid st).1.source = "cache" ∨
     (process_query env now q uid sid st).1.source = "mysql" ∨
     (process_query env now q uid sid st).1.source = "rag" ∨
     (process_query env now q uid sid st).1.source = "error") ∧
    (process_query env now q uid sid st).1.query = q ∧
    (process_query env now q uid sid st).1.user_id = uid ∧
    (process_query env now q uid sid st).1.session_id = sid ∧
    (process_query env now q uid sid st).1.timestamp = now := by
  rcases hC : check_cache env now q st with _ | c
  · rcases hM : check_mysql env q st with _ | m
    · rcases hR : process_with_rag env q with e | r
      · simp [process_query, process_query_attempt, hC, hM, hR, build_response]
      · simp [process_query, process_query_attempt, hC, hM, hR, build_response]
    · simp [process_query, process_query_attempt, hC, hM, build_response]
  · simp [process_query, process_query_attempt, hC, build_response]

/-- C3, counterexample.  The claim says the resolver writes exactly one
`QueryLogEntry` when resolution reaches the Store tier.  In a run that
resolves at the Store tier (`source = "mysql"`), the code writes no log
entry at all: `process_query` only calls `_log_query` on the RAG and error
paths. -/
theorem C3_counterexample :
    (process_query envStore 0 "hi" none none stStore).1.source = "mysql" ∧
    ((process_query envStore 0 "hi" none none stStore).2).queryLogs.length
      = 0 :=
  ⟨rfl, rfl⟩

/-- C3, amended.  The resolver writes exactly one `QueryLogEntry` when the
resolution ends on the RAG path or on the error path, and none when it ends
on a cache hit or on a Store (MySQL) hit. -/
theorem C3_log_exactly_on_rag_or_error (env : Env) (now : Nat) (q : String)
    (uid sid : Option String) (st : SysState) :
    ((process_query env now q uid sid st).2).queryLogs.length =
      st.queryLogs.length +
        (if (process_query env now q uid sid st).1.source = "rag" ∨
            (process_query env now q uid sid st).1.source = "error"
         then 1 else 0) := by
  rcases hC : check_cache env now q st with _ | c
  · rcases hM : check_mysql env q st with _ | m
    · rcases hR : process_with_rag env q with e | r
      · simp [process_query, process_query_attempt, hC, hM, hR,
              build_response, log_query, log_query_db]
      · simp [process_query, process_query_attempt, hC, hM, hR,
              build_response, log_query, log_query_db]
    · simp [process_query, process_query_attempt, hC, hM, build_response,
            cache_response_queryLogs]
  · simp [process_query, process_query_attempt, hC, build_response]

/-- C1, counterexample.  The claim says every first resolution via RAG or
Store creates the cache entry that a second identical call (within the TTL,
without intervening inserts) hits with `source = cache`.  A first
resolution that goes through the RAG path writes no cache entry, so the
second identical call one second later resolves through RAG again instead
of the cache. -/
theorem C1_counterexample :
    (process_query envGeneral 0 "你好" none none stEmpty).1.source = "rag" ∧
    (process_query envGeneral 1 "你好" none none
      ((process_query envGeneral 0 "你好" none none stEmpty).2)).1.source
      ≠ "cache" :=
  ⟨rfl, by decide⟩

/-- C1, amended.  Only a Store resolution creates the cache entry: if a
call resolves at the Store tier (`source = "mysql"`), then a second call
with the same query text, in the same process, within the cache TTL and
with no intervening writes, returns the identical answer with
`source = "cache"`. -/
theorem C1_store_write_through (env : Env) (now1 now2 : Nat) (q : String)
    (uid1 sid1 uid2 sid2 : Option String) (st : SysState)
    (hsrc : (process_query env now1 q uid1 sid1 st).1.source = "mysql")
    (hTTL : now2 < now1 + CACHE_EXPIRE_TIME) :
    (process_query env now2 q uid2 sid2
        ((process_query env now1 q uid1 sid1 st).2)).1.source = "cache" ∧
    (process_query env now2 q uid2 sid2
        ((process_query env now1 q uid1 sid1 st).2)).1.reply =
      (process_query env now1 q uid1 sid1 st).1.reply := by
  rcases hC : check_cache env now1 q st with _ | c
  · rcases hM : check_mysql env q st with _ | m
    · rcases hR : process_with_rag env q with e | r
      · simp [process_query, process_query_attempt, hC, hM, hR,
              build_response] at hsrc
      · simp [process_query, process_query_attempt, hC, hM, hR,
              build_response] at hsrc
    · have hfirst : process_query env now1 q uid1 sid1 st =
          (build_response q m.answer "mysql" 0 now1 uid1 sid1 none none,
           cache_response env now1 q m.answer st) := by
        simp [process_query, process_query_attempt, hC, hM]
      rw [hfirst]
      have hC2 := check_cache_cache_response env now1 now2 q m.answer st hTTL
      simp [process_query, process_query_attempt, hC2, build_response]
  · simp [process_query, process_query_attempt, hC, build_response] at hsrc

/-- C1, witness: a concrete Store-resolved query hits the cache on the
repeat call five seconds later. -/
theorem C1_store_write_through_witness :
    (process_query envStore 5 "hi" none none
        ((process_query envStore 0 "hi" none none stStore).2)).1.source
      = "cache" :=
  (C1_store_write_through envStore 0 5 "hi" none none none none stStore
    rfl (by decide)).1

/-- C4.  When a failure escapes the RAG step uncaught (the only step whose
failures can reach `process_query`'s top-level handler: the cache and store
probes catch their own errors as misses), the resolver returns an
apologetic reply embedding the root cause after the fixed prefix, appends
one `QueryLogEntry` with `source = "error"`, and the HTTP handler still
answers `success = true` carrying that reply — the fault never becomes a
transport-level error. -/
theorem C4_degrade_to_apology (env : Env) (now : Nat) (q : String)
    (uid sid rsid : Option String) (nsid : String) (st : SysState)
    (e : String)
    (hC : check_cache env now q st = none)
    (hM : check_mysql env q st = none)
    (hR : process_with_rag env q = .error e) :
    (process_query env now q uid sid st).1.source = "error" ∧
    (process_query env now q uid sid st).1.reply = errPrefix ++ e ∧
    ((process_query env now q uid sid st).2).queryLogs =
      st.queryLogs ++ [⟨match uid with
        | some u => if u = "" then "anonymous" else u
        | none => "anonymous", q, errPrefix ++ e, "error", 0⟩] ∧
    (api_process_query env now nsid ⟨q, uid, rsid⟩ st).1.success = true ∧
    (api_process_query env now nsid ⟨q, uid, rsid⟩ st).1.data.map
      (fun d => (d.source, d.reply)) = some ("error", errPrefix ++ e) := by
  refine ⟨?_, ?_, ?_, ?_, ?_⟩ <;>
    simp [api_process_query, process_query, process_query_attempt, hC, hM,
          hR, build_response, log_query, log_query_db]

/-- C4, witness: with a generator that always fails, the concrete query is
answered apologetically with the cause `boom`, logged as `error`, and the
transport still reports success. -/
theorem C4_degrade_to_apology_witness :
    (process_query envBoom 0 "你好" none none stEmpty).1.source = "error" ∧
    (api_process_query envBoom 0 "s" ⟨"你好", none, none⟩ stEmpty).1.success
      = true :=
  ⟨(C4_degrade_to_apology envBoom 0 "你好" none none none "s" stEmpty
      "boom" rfl rfl rfl).1,
   (C4_degrade_to_apology envBoom 0 "你好" none none none "s" stEmpty
      "boom" rfl rfl rfl).2.2.2.1⟩

/-- C5.  A Store probe (`search_qa`) returns a pair only if it full-text
matches the query and its confidence is at least the threshold — so with
the default threshold `0.8` a pair of confidence `0.79` is never returned
even on an exact keyword match — and any returned pair has maximal
confidence among the qualifying pairs, with ties on confidence broken
towards the most recent `updated_at`. -/
theorem C5_store_confidence_gate (env : Env) (st : SysState) (q : String)
    (t : ℚ) (p : QAPair)
    (h : search_qa env st q t = some p) :
    t ≤ p.confidence ∧
    (t = mkRat 8 10 → p.confidence ≠ mkRat 79 100) ∧
    env.matchQA q p.question = true ∧
    p ∈ st.qaPairs ∧
    ∀ p2 ∈ st.qaPairs, env.matchQA q p2.question = true →
      t ≤ p2.confidence →
      p2.confidence ≤ p.confidence ∧
      (p2.confidence = p.confidence → p2.updated_at ≤ p.updated_at) := by
  classical
  unfold search_qa at h
  set l := st.qaPairs.filter (fun x =>
    env.matchQA q x.question && decide (t ≤ x.confidence)) with hl
  rcases hs : List.insertionSort qaR l with _ | ⟨a, tl⟩
  · rw [hs] at h; exact absurd h (by simp)
  · rw [hs] at h
    simp only [List.head?_cons, Option.some.injEq] at h
    subst h
    have hmem : a ∈ l := by
      have ha : a ∈ List.insertionSort qaR l := by
        rw [hs]; exact List.mem_cons_self _ _
      exact (List.mem_insertionSort qaR).mp ha
    have hfil := List.mem_filter.mp hmem
    have hconds : env.matchQA q a.question = true ∧
        decide (t ≤ a.confidence) = true := by
      simpa using hfil.2
    have hconf : t ≤ a.confidence := of_decide_eq_true hconds.2
    refine ⟨hconf, ?_, hconds.1, hfil.1, ?_⟩
    · rintro ht rfl79
      rw [ht, rfl79] at hconf
      exact absurd hconf (by decide)
    · intro p2 hp2 hmatch ht2
      have hp2l : p2 ∈ l := List.mem_filter.mpr
        ⟨hp2, by simp [hmatch, ht2]⟩
      have hp2s : p2 ∈ List.insertionSort qaR l :=
        (List.mem_insertionSort qaR).mpr hp2l
      rw [hs] at hp2s
      rcases List.mem_cons.mp hp2s with rfl | hp2tl
      · exact ⟨le_refl _, fun _ => le_refl _⟩
      · have hsorted : List.Sorted qaR (List.insertionSort qaR l) :=
          List.sorted_insertionSort qaR l
        rw [hs] at hsorted
        have hrel : qaR a p2 := List.rel_of_sorted_cons hsorted p2 hp2tl
        rcases hrel with hlt | ⟨heq, hupd⟩
        · exact ⟨le_of_lt hlt, fun hceq => absurd (hceq ▸ hlt) (lt_irrefl _)⟩
        · exact ⟨le_of_eq heq, fun _ => hupd⟩

/-- C5, witness: in a store holding a confidence-0.9 pair, the probe at the
default threshold returns it, and it satisfies the gate and maximality. -/
theorem C5_store_confidence_gate_witness :
    mkRat 8 10 ≤ (mkRat 9 10 : ℚ) ∧
    envStore.matchQA "hi" "hi" = true ∧
    (⟨1, "hi", "ans", none, mkRat 9 10, 0, 0⟩ : QAPair) ∈ stStore.qaPairs :=
  ⟨(C5_store_confidence_gate envStore stStore "hi" (mkRat 8 10)
      ⟨1, "hi", "ans", none, mkRat 9 10, 0, 0⟩ rfl).1,
   (C5_store_confidence_gate envStore stStore "hi" (mkRat 8 10)
      ⟨1, "hi", "ans", none, mkRat 9 10, 0, 0⟩ rfl).2.2.1,
   (C5_store_confidence_gate envStore stStore "hi" (mkRat 8 10)
      ⟨1, "hi", "ans", none, mkRat 9 10, 0, 0⟩ rfl).2.2.2.1⟩

/-- C8.  When the hybrid index search yields zero child candidates or the
embedding/index call fails, retrieval returns the empty sequence rather
than an error; and provided the cache and store miss and the (black-box)
generator answers the empty-context call with a non-empty reply, the
resolver still returns `source = "rag"` with that non-empty reply and the
transport reports success. -/
theorem C8_empty_retrieval_fallback (env : Env) (now : Nat) (q : String)
    (uid sid rsid : Option String) (nsid : String) (st : SysState)
    (opt : OptResult) (reply : String)
    (hS : env.hybridSearch q = .ok [] ∨ ∃ err, env.hybridSearch q = .error err)
    (hC : check_cache env now q st = none)
    (hM : check_mysql env q st = none)
    (hL : ∀ g, env.llm q [] g = .ok reply)
    (hNE : reply ≠ "") :
    retrieve_documents env q opt = [] ∧
    (process_query env now q uid sid st).1.source = "rag" ∧
    (process_query env now q uid sid st).1.reply = reply ∧
    (process_query env now q uid sid st).1.reply ≠ "" ∧
    (api_process_query env now nsid ⟨q, uid, rsid⟩ st).1.success = true := by
  have hret : ∀ o : OptResult, retrieve_documents env q o = [] := by
    intro o
    rcases hS with hok | ⟨err, herr⟩
    · simp [retrieve_documents, hok]
    · simp [retrieve_documents, herr]
  have hrag : process_with_rag env q = .ok
      (if (env.classify q).intent_id = 1 then
        { reply := reply, intent := env.classify q,
          path := "professional_consultation", documents := [],
          optimization := some (optimize_query env q "auto"), error := none }
       else
        { reply := reply, intent := env.classify q,
          path := "general_knowledge", documents := [],
          optimization := none, error := none }) := by
    unfold process_with_rag rag_attempt
    by_cases hi : (env.classify q).intent_id = 1
    · simp [hi, hret, hL false]
    · simp [hi, hL true]
  refine ⟨hret opt, ?_, ?_, ?_, ?_⟩ <;>
    by_cases hi : (env.classify q).intent_id = 1 <;>
      simp [hi, api_process_query, process_query, process_query_attempt,
            hC, hM, hrag, build_response, hNE]

/-- C8, witness: with an index that returns zero candidates, the concrete
query resolves with `source = "rag"` and the non-empty general reply. -/
theorem C8_empty_retrieval_fallback_witness :
    retrieve_documents envGeneral "你好" (fallback_optimization "你好") = [] ∧
    (process_query envGeneral 0 "你好" none none stEmpty).1.source = "rag" ∧
    (process_query envGeneral 0 "你好" none none stEmpty).1.reply = "你好" :=
  ⟨(C8_empty_retrieval_fallback envGeneral 0 "你好" none none none "s"
      stEmpty (fallback_optimization "你好") "你好" (Or.inl rfl) rfl rfl
      (fun _ => rfl) (by decide)).1,
   (C8_empty_retrieval_fallback envGeneral 0 "你好" none none none "s"
      stEmpty (fallback_optimization "你好") "你好" (Or.inl rfl) rfl rfl
      (fun _ => rfl) (by decide)).2.1,
   (C8_empty_retrieval_fallback envGeneral 0 "你好" none none none "s"
      stEmpty (fallback_optimization "你好") "你好" (Or.inl rfl) rfl rfl
      (fun _ => rfl) (by decide)).2.2.1⟩

/-- Under `"auto"`, the dispatched result carries exactly the selected
strategy name (each strategy constructor labels its own result and the
selector only emits the four known names, so the `ValueError` fallback is
unreachable). -/
lemma optimize_auto_strategy (env : Env) (q : String) :
    (optimize_query env q "auto").strategy = select_best_strategy env q := by
  simp only [optimize_query, if_pos rfl]
  simp only [select_best_strategy]
  split_ifs <;>
    simp_all [direct_retrieval, subquery_retrieval, backtrack_retrieval,
              hypothesis_retrieval]

/-- C6.  With `strategy="auto"`, the optimizer selects by the feature rules
in priority order: (1) short queries (`length < 10` and `tokens ≤ 3`) go
`direct`; (2) question marker together with a domain term goes `subquery`;
(3) long queries (`length > 20` and `tokens > 8`) go `backtrack`;
(4) a domain term without question marker goes `hypothesis`; (5) otherwise
`direct`.  In particular `optimize("篮球鞋多少钱", "auto")` selects
`direct` whenever the segmenter cuts that query into at most 3 tokens
(its length 6 is below 10). -/
theorem C6_auto_strategy_priority (env : Env) (q : String) :
    (q.length < 10 ∧ (env.tokenize q).length ≤ 3 →
      (optimize_query env q "auto").strategy = "direct") ∧
    (¬(q.length < 10 ∧ (env.tokenize q).length ≤ 3) →
      has_question_words q = true ∧ contains_sports_terms q = true →
      (optimize_query env q "auto").strategy = "subquery") ∧
    (¬(q.length < 10 ∧ (env.tokenize q).length ≤ 3) →
      ¬(has_question_words q = true ∧ contains_sports_terms q = true) →
      q.length > 20 ∧ (env.tokenize q).length > 8 →
      (optimize_query env q "auto").strategy = "backtrack") ∧
    (¬(q.length < 10 ∧ (env.tokenize q).length ≤ 3) →
      ¬(has_question_words q = true ∧ contains_sports_terms q = true) →
      ¬(q.length > 20 ∧ (env.tokenize q).length > 8) →
      contains_sports_terms q = true ∧ has_question_words q = false →
      (optimize_query env q "auto").strategy = "hypothesis") ∧
    (¬(q.length < 10 ∧ (env.tokenize q).length ≤ 3) →
      ¬(has_question_words q = true ∧ contains_sports_terms q = true) →
      ¬(q.length > 20 ∧ (env.tokenize q).length > 8) →
      ¬(contains_sports_terms q = true ∧ has_question_words q = false) →
      (optimize_query env q "auto").strategy = "direct") ∧
    ((env.tokenize "篮球鞋多少钱").length ≤ 3 →
      (optimize_query env "篮球鞋多少钱" "auto").strategy = "direct") := by
  refine ⟨?_, ?_, ?_, ?_, ?_, ?_⟩
  · intro h1
    rw [optimize_auto_strategy]; simp only [select_best_strategy]
    rw [if_pos h1]
  · intro h1 h2
    rw [optimize_auto_strategy]; simp only [select_best_strategy]
    rw [if_neg h1, if_pos h2]
  · intro h1 h2 h3
    rw [optimize_auto_strategy]; simp only [select_best_strategy]
    rw [if_neg h1, if_neg h2, if_pos h3]
  · intro h1 h2 h3 h4
    rw [optimize_auto_strategy]; simp only [select_best_strategy]
    rw [if_neg h1, if_neg h2, if_neg h3, if_pos h4]
  · intro h1 h2 h3 h4
    rw [optimize_auto_strategy]; simp only [select_best_strategy]
    rw [if_neg h1, if_neg h2, if_neg h3, if_neg h4]
  · intro hT
    rw [optimize_auto_strategy]; simp only [select_best_strategy]
    rw [if_pos ⟨by decide, hT⟩]

/-- C6, witness: a segmenter that cuts `"篮球鞋多少钱"` into
`篮球鞋 / 多少 / 钱` makes `"auto"` select `direct`. -/
theorem C6_auto_strategy_priority_witness :
    (optimize_query envTok3 "篮球鞋多少钱" "auto").strategy = "direct" :=
  (C6_auto_strategy_priority envTok3 "篮球鞋多少钱").2.2.2.2.2 (by decide)

/-- C10.  The question-marker feature is the regex character class
`[什么|怎么|如何|为什么|哪个|哪些]`: it is true iff the query contains at
least one of the individual characters `什 么 怎 如 何 为 哪 个 些` (or
the literal `|`).  Hence `"一个"` — which contains `个` but no question
word — counts as marked, and combined with the domain term `篮球` the
auto selector routes the ten-character query `"一个篮球比赛的队员们"` to
`subquery` for every tokenizer. -/
theorem C10_question_marker_char_class :
    (∀ q : String, has_question_words q = true ↔
      ∃ c ∈ q.data, c ∈ questionChars) ∧
    has_question_words "一个" = true ∧
    (∀ env : Env, select_best_strategy env "一个篮球比赛的队员们"
      = "subquery") := by
  refine ⟨?_, by decide, ?_⟩
  · intro q
    simp [has_question_words, List.any_eq_true, List.contains,
          List.elem_eq_mem]
  · intro env
    simp only [select_best_strategy]
    rw [if_neg (fun h => absurd h.1 (by decide)),
        if_pos ⟨by decide, by decide⟩]

/-- C10, witness: instantiating the routing consequence at a concrete
process. -/
theorem C10_question_marker_char_class_witness :
    select_best_strategy envGeneral "一个篮球比赛的队员们" = "subquery" :=
  C10_question_marker_char_class.2.2 envGeneral

/-- Stability of the final sort: the subsequence of documents carrying any
fixed score is left untouched, which is exactly the guarantee of Python's
stable `list.sort` for ties. -/
lemma insertionSort_filter_score (s : ℚ) (l : List FinalDoc) :
    (List.insertionSort docR l).filter (fun d => d.combined_score == s) =
      l.filter (fun d => d.combined_score == s) := by
  classical
  set pred := (fun d : FinalDoc => d.combined_score == s) with hpred
  have hpw : (l.filter pred).Pairwise docR := by
    apply List.pairwise_of_forall_mem_list
    intro a ha b hb
    have ha2 : a.combined_score = s := by
      simpa [hpred] using (List.mem_filter.mp ha).2
    have hb2 : b.combined_score = s := by
      simpa [hpred] using (List.mem_filter.mp hb).2
    show b.combined_score ≤ a.combined_score
    rw [ha2, hb2]
  have hsub : List.Sublist (l.filter pred) (List.insertionSort docR l) :=
    List.sublist_insertionSort hpw (List.filter_sublist l)
  have hsub2 : List.Sublist (l.filter pred)
      ((List.insertionSort docR l).filter pred) := by
    have h1 := hsub.filter pred
    rwa [List.filter_eq_self.mpr
      (fun a ha => (List.mem_filter.mp ha).2)] at h1
  have hperm : List.Perm ((List.insertionSort docR l).filter pred)
      (l.filter pred) :=
    (List.perm_insertionSort docR l).filter pred
  exact (hsub2.eq_of_length hperm.length_eq.symm).symm

/-- The fused list holds exactly one entry per child whose parent exists:
its length is the count of children whose `parent_id` has a match. -/
lemma length_filterMap_fuseOne (parents : List ParentDoc) :
    ∀ children : List ChildDoc,
    (children.filterMap (fuseOne parents)).length =
      children.countP (fun c =>
        (parents.find? (fun p => p.doc_id == c.parent_id)).isSome)
  | [] => rfl
  | c :: cs => by
    rcases hf : parents.find? (fun p => p.doc_id == c.parent_id) with _ | p
    · simp [List.filterMap_cons, List.countP_cons, fuseOne, hf,
            length_filterMap_fuseOne parents cs]
    · simp [List.filterMap_cons, List.countP_cons, fuseOne, hf,
            length_filterMap_fuseOne parents cs]

/-- C7.  The fuse / sort / truncate stage: the fused list holds exactly one
document per child candidate whose `parent_id` matches a fetched parent
(children with no matching parent are dropped silently, producing `none`,
never an error); a fused document takes the parent's title (falling back
to the child's), the parent content then a blank line then the child
content, and copies `similarity` and `combined_score` from the child; the
output is the fused list stably sorted by `combined_score` descending
(equal scores keep their original retrieval order) and truncated to at
most `TOP_M = 5`. -/
theorem C7_fuse_sort_truncate (children : List ChildDoc)
    (parents : List ParentDoc) :
    (children.filterMap (fuseOne parents)).length =
      children.countP (fun c =>
        (parents.find? (fun p => p.doc_id == c.parent_id)).isSome) ∧
    (∀ c p, parents.find? (fun x => x.doc_id == c.parent_id) = some p →
      fuseOne parents c = some
        { doc_id := c.doc_id, parent_id := c.parent_id,
          title := p.title.getD (c.title.getD ""),
          content := (p.content.getD "") ++ "\n\n" ++ (c.content.getD ""),
          category := c.category.getD "",
          similarity := c.similarity,
          combined_score := c.combined_score }) ∧
    (∀ c, parents.find? (fun x => x.doc_id == c.parent_id) = none →
      fuseOne parents c = none) ∧
    (List.insertionSort docR (children.filterMap (fuseOne parents))).Perm
      (children.filterMap (fuseOne parents)) ∧
    (List.insertionSort docR (children.filterMap (fuseOne parents))).Pairwise
      (fun a b => b.combined_score ≤ a.combined_score) ∧
    (∀ s : ℚ,
      (List.insertionSort docR
        (children.filterMap (fuseOne parents))).filter
          (fun d => d.combined_score == s) =
        (children.filterMap (fuseOne parents)).filter
          (fun d => d.combined_score == s)) ∧
    fuseDocuments children parents =
      (List.insertionSort docR
        (children.filterMap (fuseOne parents))).take TOP_M ∧
    (fuseDocuments children parents).length ≤ 5 ∧
    (fuseDocuments children parents).Pairwise
      (fun a b => b.combined_score ≤ a.combined_score) := by
  have hsorted : (List.insertionSort docR
      (children.filterMap (fuseOne parents))).Pairwise
        (fun a b => b.combined_score ≤ a.combined_score) :=
    List.sorted_insertionSort docR (children.filterMap (fuseOne parents))
  refine ⟨length_filterMap_fuseOne parents children, ?_, ?_,
          List.perm_insertionSort docR _, hsorted,
          fun s => insertionSort_filter_score s _, rfl, ?_, ?_⟩
  · intro c p hf
    simp [fuseOne, hf]
  · intro c hf
    simp [fuseOne, hf]
  · show ((List.insertionSort docR _).take TOP_M).length ≤ 5
    rw [List.length_take]
    exact min_le_left _ _
  · exact hsorted.sublist (List.take_sublist _ _)

/-- C7, witness: with one parent `p1` and children `c1` (matching) and `c3`
(orphaned), fusion produces the merged document for `c1` and silently
drops `c3`. -/
theorem C7_fuse_sort_truncate_witness :
    fuseOne [⟨"p1", some "pt", some "pcontent"⟩]
        ⟨"c1", "p1", some "ct", some "ccontent", none, mkRat 1 2, mkRat 9 10⟩
      = some ⟨"c1", "p1", "pt", "pcontent\n\nccontent", "",
              mkRat 1 2, mkRat 9 10⟩ ∧
    fuseOne [⟨"p1", some "pt", some "pcontent"⟩]
        ⟨"c3", "nope", none, some "c3content", none, mkRat 1 2, mkRat 99 100⟩
      = none :=
  ⟨(C7_fuse_sort_truncate
      [⟨"c1", "p1", some "ct", some "ccontent", none, mkRat 1 2, mkRat 9 10⟩,
       ⟨"c3", "nope", none, some "c3content", none, mkRat 1 2, mkRat 99 100⟩]
      [⟨"p1", some "pt", some "pcontent"⟩]).2.1
      ⟨"c1", "p1", some "ct", some "ccontent", none, mkRat 1 2, mkRat 9 10⟩
      ⟨"p1", some "pt", some "pcontent"⟩ rfl,
   (C7_fuse_sort_truncate
      [⟨"c1", "p1", some "ct", some "ccontent", none, mkRat 1 2, mkRat 9 10⟩,
       ⟨"c3", "nope", none, some "c3content", none, mkRat 1 2, mkRat 99 100⟩]
      [⟨"p1", some "pt", some "pcontent"⟩]).2.2.1
      ⟨"c3", "nope", none, some "c3content", none, mkRat 1 2, mkRat 99 100⟩
      rfl⟩

end SportsRag
